import Mathlib

/-!
Verification of the quota-tracking / request-handling core of the
`ofc-analyzer` gateway (source: `src/api/handler.js`).

The embedding translates, from the source:
  * the SHA-256 digest used by `RequestTracker.getKey`
    (`crypto.createHash(sha256).update(apiKey).digest(hex)`),
    implemented bit-for-bit over `Nat` arithmetic mod 2^32 and validated
    against the standard test vectors;
  * the in-memory `RequestTracker` (`getCount`, `increment`,
    `getRemainingRequests`): the JS `Map` becomes an association list,
    the ambient "today" (`new Date().toISOString().split(T)[0]`)
    becomes an explicit `today : String` argument, and the in-place
    mutation of the map becomes explicit state passing;
  * the error classification of `callCheckoAPI` as a pure function of
    the upstream HTTP response;
  * the four endpoint branches of the exported handler
    (`check-connection`, `company`, `finances`, `batch`).  Network I/O
    is abstracted by an `Oracle` giving, per (endpoint, inn) pair, the
    outcome of `callCheckoAPI`; each modelled endpoint returns its JSON
    response, the resulting store, and the list of upstream calls made.
-/

set_option maxRecDepth 100000

namespace Handler

/-! ### SHA-256 over byte lists (all words are `Nat` mod 2^32) -/

def M32 : Nat := 4294967296

def rotr (n x : Nat) : Nat := ((x >>> n) ||| (x <<< (32 - n))) % M32

def bigSigma0 (x : Nat) : Nat := rotr 2 x ^^^ rotr 13 x ^^^ rotr 22 x

def bigSigma1 (x : Nat) : Nat := rotr 6 x ^^^ rotr 11 x ^^^ rotr 25 x

def smallSigma0 (x : Nat) : Nat := rotr 7 x ^^^ rotr 18 x ^^^ (x >>> 3)

def smallSigma1 (x : Nat) : Nat := rotr 17 x ^^^ rotr 19 x ^^^ (x >>> 10)

def ch (x y z : Nat) : Nat := (x &&& y) ^^^ ((x ^^^ 4294967295) &&& z)

def maj (x y z : Nat) : Nat := (x &&& y) ^^^ (x &&& z) ^^^ (y &&& z)

/-- Round constants of SHA-256 (FIPS 180-4), written in decimal. -/
def K : List Nat :=
  [1116352408, 1899447441, 3049323471, 3921009573, 961987163,
   1508970993, 2453635748, 2870763221, 3624381080, 310598401,
   607225278, 1426881987, 1925078388, 2162078206, 2614888103,
   3248222580, 3835390401, 4022224774, 264347078, 604807628,
   770255983, 1249150122, 1555081692, 1996064986, 2554220882,
   2821834349, 2952996808, 3210313671, 3336571891, 3584528711,
   113926993, 338241895, 666307205, 773529912, 1294757372,
   1396182291, 1695183700, 1986661051, 2177026350, 2456956037,
   2730485921, 2820302411, 3259730800, 3345764771, 3516065817,
   3600352804, 4094571909, 275423344, 430227734, 506948616,
   659060556, 883997877, 958139571, 1322822218, 1537002063,
   1747873779, 1955562222, 2024104815, 2227730452, 2361852424,
   2428436474, 2756734187, 3204031479, 3329325298]

structure Hash8 where
  a : Nat
  b : Nat
  c : Nat
  d : Nat
  e : Nat
  f : Nat
  g : Nat
  h : Nat
deriving Repr, DecidableEq

/-- Initial hash values of SHA-256 (FIPS 180-4), written in decimal. -/
def initH : Hash8 :=
  ⟨1779033703, 3144134277, 1013904242, 2773480762,
   1359893119, 2600822924, 528734635, 1541459225⟩

def extendStep (wr : List Nat) : List Nat :=
  ((smallSigma1 (wr.getD 1 0) + wr.getD 6 0 + smallSigma0 (wr.getD 14 0) + wr.getD 15 0) % M32) :: wr

def extendN : Nat → List Nat → List Nat
  | 0, w => w
  | n + 1, w => extendN n (extendStep w)

def schedule (block : List Nat) : List Nat := (extendN 48 block.reverse).reverse

def sha256Round (s : Hash8) (ki wi : Nat) : Hash8 :=
  let t1 := (s.h + bigSigma1 s.e + ch s.e s.f s.g + ki + wi) % M32
  let t2 := (bigSigma0 s.a + maj s.a s.b s.c) % M32
  ⟨(t1 + t2) % M32, s.a, s.b, s.c, (s.d + t1) % M32, s.e, s.f, s.g⟩

def compress (h : Hash8) (block : List Nat) : Hash8 :=
  let s := (List.zip K (schedule block)).foldl (fun s kw => sha256Round s kw.1 kw.2) h
  ⟨(h.a + s.a) % M32, (h.b + s.b) % M32, (h.c + s.c) % M32, (h.d + s.d) % M32,
   (h.e + s.e) % M32, (h.f + s.f) % M32, (h.g + s.g) % M32, (h.h + s.h) % M32⟩

def toWords : List Nat → List Nat
  | b0 :: b1 :: b2 :: b3 :: rest => (((b0 * 256 + b1) * 256 + b2) * 256 + b3) :: toWords rest
  | _ => []

def lenBytes (bitLen : Nat) : List Nat :=
  (List.range 8).map (fun i => (bitLen >>> (8 * (7 - i))) &&& 255)

def padMessage (msg : List Nat) : List Nat :=
  msg ++ 0x80 :: List.replicate ((119 - msg.length % 64) % 64) 0 ++ lenBytes (msg.length * 8)

def chunksF : Nat → List Nat → List (List Nat)
  | 0, _ => []
  | _, [] => []
  | fuel + 1, a :: rest => ((a :: rest).take 64) :: chunksF fuel ((a :: rest).drop 64)

def chunks64 (l : List Nat) : List (List Nat) := chunksF l.length l

def sha256Bytes (msg : List Nat) : Hash8 :=
  (chunks64 (padMessage msg)).foldl (fun h block => compress h (toWords block)) initH

/-- Encoding of a single Unicode code point in UTF-8, as Node encodes JS strings
for `hash.update`. -/
def encodeChar (n : Nat) : List Nat :=
  if n < 0x80 then [n]
  else if n < 0x800 then [0xC0 ||| (n >>> 6), 0x80 ||| (n &&& 0x3F)]
  else if n < 0x10000 then
    [0xE0 ||| (n >>> 12), 0x80 ||| ((n >>> 6) &&& 0x3F), 0x80 ||| (n &&& 0x3F)]
  else
    [0xF0 ||| (n >>> 18), 0x80 ||| ((n >>> 12) &&& 0x3F), 0x80 ||| ((n >>> 6) &&& 0x3F),
     0x80 ||| (n &&& 0x3F)]

def utf8Bytes (s : String) : List Nat := (s.data.map (fun c => encodeChar c.toNat)).flatten

def hexChar (n : Nat) : Char := if n < 10 then Char.ofNat (48 + n) else Char.ofNat (87 + n)

def word8Hex (w : Nat) : List Char := (List.range 8).map (fun i => hexChar ((w >>> (4 * (7 - i))) &&& 15))

def hash8Hex (h : Hash8) : String :=
  String.mk (word8Hex h.a ++ word8Hex h.b ++ word8Hex h.c ++ word8Hex h.d ++
             word8Hex h.e ++ word8Hex h.f ++ word8Hex h.g ++ word8Hex h.h)

def sha256Hex (s : String) : String := hash8Hex (sha256Bytes (utf8Bytes s))

/-- Sanity check against the standard SHA-256 test vector for the empty string. -/
theorem sha256Hex_empty :
    sha256Hex ("") = ("e3b0c44298fc1c149afbf4c8996fb92427ae41e4649b934ca495991b7852b855") := by
  decide

/-- Sanity check against the standard SHA-256 test vector for "abc". -/
theorem sha256Hex_abc :
    sha256Hex ("abc") = ("ba7816bf8f01cfea414140de5dae2223b00361a396177a9cb410ff61f20015ad") := by
  decide

/-! ### The request tracker (`class RequestTracker`, handler.js lines 5-40)

The JS `Map` keyed by hex digests becomes an association list; the ambient
current date becomes an explicit `today` argument to each operation. -/

structure UsageRecord where
  date : String
  count : Nat
deriving Repr, DecidableEq

abbrev Store : Type := List (String × UsageRecord)

/-- Lookup in the association list modelling `this.requests.get(key)`. -/
def mapGet : Store → String → Option UsageRecord
  | [], _ => none
  | (k, v) :: rest, key => if k = key then some v else mapGet rest key

/-- Update modelling `this.requests.set(key, v)` (and the in-place
`data.count++`, which leaves the same map entry holding the bumped count). -/
def mapSet : Store → String → UsageRecord → Store
  | [], key, v => [(key, v)]
  | (k, w) :: rest, key, v => if k = key then (key, v) :: rest else (k, w) :: mapSet rest key v

/-- Translation of `RequestTracker.getKey` (handler.js lines 10-12):
`crypto.createHash(sha256).update(apiKey).digest(hex)`. -/
def getKey (apiKey : String) : String := sha256Hex apiKey

/-- Translation of `RequestTracker.getCount` (handler.js lines 14-22). -/
def getCount (st : Store) (today apiKey : String) : Nat :=
  match mapGet st (getKey apiKey) with
  | none => 0
  | some data => if data.date = today then data.count else 0

/-- Translation of `RequestTracker.increment` (handler.js lines 24-34);
returns the new count together with the updated store. -/
def increment (st : Store) (today apiKey : String) : Nat × Store :=
  match mapGet st (getKey apiKey) with
  | none => (1, mapSet st (getKey apiKey) { date := today, count := 1 })
  | some data =>
    if data.date = today then
      (data.count + 1, mapSet st (getKey apiKey) { date := data.date, count := data.count + 1 })
    else
      (1, mapSet st (getKey apiKey) { date := today, count := 1 })

/-- Translation of `RequestTracker.getRemainingRequests` (handler.js lines
36-39): `Math.max(0, 100 - used)` over JS numbers, hence on `Int`. -/
def getRemainingRequests (st : Store) (today apiKey : String) : Int :=
  max 0 (100 - (getCount st today apiKey : Int))

/-- Iterated consecutive `increment` calls for the same key on the same day;
`(repeatIncrement st today k n).1` is the value returned by the n-th call. -/
def repeatIncrement (st : Store) (today apiKey : String) : Nat → Nat × Store
  | 0 => (0, st)
  | n + 1 => increment (repeatIncrement st today apiKey n).2 today apiKey

/-! ### Upstream client error classification (`callCheckoAPI`, lines 63-140) -/

/-- Parsed upstream JSON payload, restricted to the fields the handler reads:
`data.meta?.today_request_count` and the key set of `data.data`. -/
structure Payload where
  todayRequestCount : Option Nat
  dataKeys : Option Nat
deriving Repr, DecidableEq

/-- Translation of `data?.data && Object.keys(data.data).length > 0`. -/
def hasData (p : Payload) : Bool :=
  match p.dataKeys with
  | some n => decide (0 < n)
  | none => false

/-- Error produced by `createError(message, statusCode)` (lines 47-52).  A
rethrown transport failure, which carries no `statusCode`, is modelled with
`statusCode = 0` (both are falsy under the `statusCode || 500` idiom of the handler). -/
structure ApiError where
  message : String
  statusCode : Nat
deriving Repr, DecidableEq

/-- Translation of the JS idiom `statusCode || 500`. -/
def statusOr500 (n : Nat) : Nat := if n = 0 then 500 else n

/-- Relevant observables of an upstream HTTP response: the status code, the
raw error body text, whether the parsed error body has `meta.balance === 0`,
and the parsed payload (meaningful on success). -/
structure UpstreamHttp where
  status : Nat
  errorBody : String
  metaBalanceZero : Bool
  payload : Payload
deriving Repr, DecidableEq

/-- Message of the fall-through branch of the classifier (line 123). -/
def checkoErrorMessage (r : UpstreamHttp) : String :=
  ("Ошибка API Checko: ") ++ toString r.status ++ (" - ") ++
    (if r.errorBody = "" then ("Нет деталей") else r.errorBody)

/-- Translation of the response classification in `callCheckoAPI`
(handler.js lines 100-135).  `response.ok` is status in [200, 300). -/
def callCheckoAPI (r : UpstreamHttp) : Except ApiError Payload :=
  if 200 ≤ r.status ∧ r.status < 300 then
    Except.ok r.payload
  else if r.status = 401 ∨ r.status = 403 then
    Except.error { message := ("Неверный API ключ или доступ запрещён"), statusCode := 401 }
  else if r.status = 429 then
    Except.error { message := ("Превышен лимит запросов к Checko API"), statusCode := 429 }
  else if r.status = 400 ∧ r.metaBalanceZero = true then
    Except.error
      { message := ("Баланс API-ключа равен 0. Проверьте баланс на сайте checko.ru или используйте ключ с бесплатным тарифом."),
        statusCode := 402 }
  else
    Except.error { message := checkoErrorMessage r, statusCode := statusOr500 r.status }

/-! ### Endpoint handlers (module.exports, handler.js lines 143-417)

The network is abstracted by an oracle mapping an (endpoint, inn) pair to
the outcome of `callCheckoAPI` for that request: either the parsed payload
or the classified (or transport) error thrown.  Each modelled endpoint
returns the JSON response, the store after the request, and the list of
upstream calls attempted. -/

def Oracle : Type := String → String → Except ApiError Payload

structure ApiResponse where
  httpStatus : Nat
  status : String
  message : Option String
  requestsUsedToday : Option Int
  remainingRequests : Option Int
  data : Option Payload
deriving Repr, DecidableEq

/-- Translation of `jsonError(res, statusCode, message, extra)` for the
single-lookup endpoints (lines 54-60). -/
def mkError (code : Nat) (msg : String) (used remaining : Option Int) : ApiResponse :=
  { httpStatus := code, status := ("error"), message := some msg,
    requestsUsedToday := used, remainingRequests := remaining, data := none }

structure SingleOut where
  resp : ApiResponse
  store : Store
  calls : List (String × String)
deriving Repr, DecidableEq

/-- Translation of `data.meta?.today_request_count || fallback` (JS `||`:
both `undefined` and `0` fall through to the fallback). -/
def metaOrCount (m : Option Nat) (fallback : Nat) : Int :=
  match m with
  | some n => if n = 0 then (fallback : Int) else (n : Int)
  | none => (fallback : Int)

/-- Translation of the `/company` endpoint branch (handler.js lines 214-262). -/
def companyEndpoint (oracle : Oracle) (st : Store) (today : String)
    (apiKey inn : Option String) : SingleOut :=
  match apiKey, inn with
  | some k, some i =>
    if k = "" ∨ i = "" then
      { resp := mkError 401 ("API ключ и ИНН обязательны") none none, store := st, calls := [] }
    else if getRemainingRequests st today k ≤ 0 then
      { resp := mkError 429 ("Лимит 100 запросов в день исчерпан (локальный счетчик)")
          (some 100) (some 0),
        store := st, calls := [] }
    else
      match oracle ("/company") i with
      | Except.error e =>
        { resp := mkError (statusOr500 e.statusCode) e.message
            (some (getCount st today k : Int)) (some (getRemainingRequests st today k)),
          store := st, calls := [(("/company"), i)] }
      | Except.ok data =>
        let st1 := (increment st today k).2
        let requestsUsedToday := metaOrCount data.todayRequestCount (getCount st1 today k)
        let newRemaining := max 0 (100 - requestsUsedToday)
        if hasData data then
          { resp := { httpStatus := 200, status := ("ok"), message := none,
                      requestsUsedToday := some requestsUsedToday,
                      remainingRequests := some newRemaining, data := some data },
            store := st1, calls := [(("/company"), i)] }
        else
          { resp := mkError 404 ("Компания не найдена") (some requestsUsedToday) (some newRemaining),
            store := st1, calls := [(("/company"), i)] }
  | _, _ =>
    { resp := mkError 401 ("API ключ и ИНН обязательны") none none, store := st, calls := [] }

/-- Translation of the `/finances` endpoint branch (handler.js lines
265-314), structurally identical to `/company` up to endpoint and messages. -/
def financesEndpoint (oracle : Oracle) (st : Store) (today : String)
    (apiKey inn : Option String) : SingleOut :=
  match apiKey, inn with
  | some k, some i =>
    if k = "" ∨ i = "" then
      { resp := mkError 401 ("API ключ и ИНН обязательны") none none, store := st, calls := [] }
    else if getRemainingRequests st today k ≤ 0 then
      { resp := mkError 429 ("Лимит 100 запросов в день исчерпан (локальный счетчик)")
          (some 100) (some 0),
        store := st, calls := [] }
    else
      match oracle ("/finances") i with
      | Except.error e =>
        { resp := mkError (statusOr500 e.statusCode) e.message
            (some (getCount st today k : Int)) (some (getRemainingRequests st today k)),
          store := st, calls := [(("/finances"), i)] }
      | Except.ok data =>
        let st1 := (increment st today k).2
        let requestsUsedToday := metaOrCount data.todayRequestCount (getCount st1 today k)
        let newRemaining := max 0 (100 - requestsUsedToday)
        if hasData data then
          { resp := { httpStatus := 200, status := ("ok"), message := none,
                      requestsUsedToday := some requestsUsedToday,
                      remainingRequests := some newRemaining, data := some data },
            store := st1, calls := [(("/finances"), i)] }
        else
          { resp := mkError 404 ("Финансовая информация не найдена")
              (some requestsUsedToday) (some newRemaining),
            store := st1, calls := [(("/finances"), i)] }
  | _, _ =>
    { resp := mkError 401 ("API ключ и ИНН обязательны") none none, store := st, calls := [] }

/-- Fixed reference INN used by `check-connection` (handler.js line 192). -/
def testINN : String := "7735560386"

/-- Translation of the `/check-connection` endpoint branch (handler.js lines
184-211).  It never calls `tracker.increment`. -/
def checkConnectionEndpoint (oracle : Oracle) (st : Store) (today : String)
    (apiKey : Option String) : SingleOut :=
  match apiKey with
  | some k =>
    if k = "" then
      { resp := mkError 401 ("API ключ не предоставлен") none none, store := st, calls := [] }
    else
      match oracle ("/company") testINN with
      | Except.ok testData =>
        let requestsUsedToday := metaOrCount testData.todayRequestCount (getCount st today k)
        let remainingRequests := max 0 (100 - requestsUsedToday)
        { resp := { httpStatus := 200, status := ("ok"), message := some ("Подключение успешно"),
                    requestsUsedToday := some requestsUsedToday,
                    remainingRequests := some remainingRequests, data := none },
          store := st, calls := [(("/company"), testINN)] }
      | Except.error e =>
        { resp := mkError (statusOr500 e.statusCode) (("Ошибка подключения: ") ++ e.message)
            none none,
          store := st, calls := [(("/company"), testINN)] }
  | none =>
    { resp := mkError 401 ("API ключ не предоставлен") none none, store := st, calls := [] }

/-! ### The batch endpoint (handler.js lines 317-387) -/

structure BatchError where
  inn : String
  message : String
  statusCode : Nat
deriving Repr, DecidableEq

structure BatchEntry where
  inn : String
  company : Payload
  finances : Payload
deriving Repr, DecidableEq

structure BatchRun where
  results : List BatchEntry
  errors : List BatchError
  store : Store
  calls : List (String × String)
deriving Repr, DecidableEq

/-- Translation of the per-INN loop body of the batch endpoint (handler.js
lines 338-366): company lookup, increment, presence check, finances lookup,
increment, presence check; any thrown error is appended to `errors` and the
loop moves on to the next INN. -/
def processBatch (oracle : Oracle) (today k : String) : List String → Store → BatchRun
  | [], st => { results := [], errors := [], store := st, calls := [] }
  | inn :: rest, st =>
    match oracle ("/company") inn with
    | Except.error e =>
      let r := processBatch oracle today k rest st
      { r with
        errors := { inn := inn, message := e.message, statusCode := statusOr500 e.statusCode }
          :: r.errors,
        calls := (("/company"), inn) :: r.calls }
    | Except.ok companyData =>
      let st1 := (increment st today k).2
      if hasData companyData then
        match oracle ("/finances") inn with
        | Except.error e =>
          let r := processBatch oracle today k rest st1
          { r with
            errors := { inn := inn, message := e.message, statusCode := statusOr500 e.statusCode }
              :: r.errors,
            calls := (("/company"), inn) :: (("/finances"), inn) :: r.calls }
        | Except.ok financeData =>
          let st2 := (increment st1 today k).2
          if hasData financeData then
            let r := processBatch oracle today k rest st2
            { r with
              results := { inn := inn, company := companyData, finances := financeData }
                :: r.results,
              calls := (("/company"), inn) :: (("/finances"), inn) :: r.calls }
          else
            let r := processBatch oracle today k rest st2
            { r with
              errors := { inn := inn, message := ("Финансовая информация не найдена"),
                          statusCode := 404 } :: r.errors,
              calls := (("/company"), inn) :: (("/finances"), inn) :: r.calls }
      else
        let r := processBatch oracle today k rest st1
        { r with
          errors := { inn := inn, message := ("Компания не найдена"), statusCode := 404 }
            :: r.errors,
          calls := (("/company"), inn) :: r.calls }

structure BatchResponse where
  httpStatus : Nat
  status : String
  message : Option String
  data : List BatchEntry
  errors : Option (List BatchError)
  requestsUsedToday : Option Int
  remainingRequests : Option Int
deriving Repr, DecidableEq

structure BatchOut where
  resp : BatchResponse
  store : Store
  calls : List (String × String)
deriving Repr, DecidableEq

/-- Translation of `errors[0]?.statusCode || 500` (handler.js line 372). -/
def headStatusOr500 (es : List BatchError) : Nat :=
  match es with
  | e :: _ => statusOr500 e.statusCode
  | [] => 500

/-- Translation of the `/batch` endpoint branch (handler.js lines 317-387). -/
def batchEndpoint (oracle : Oracle) (st : Store) (today : String)
    (apiKey : Option String) (innList : Option (List String)) : BatchOut :=
  match apiKey, innList with
  | some k, some l =>
    if k = "" ∨ l = [] then
      { resp := { httpStatus := 401, status := ("error"),
                  message := some ("API ключ и массив ИНН обязательны"),
                  data := [], errors := none,
                  requestsUsedToday := none, remainingRequests := none },
        store := st, calls := [] }
    else if getRemainingRequests st today k < ((l.length * 2 : Nat) : Int) then
      { resp := { httpStatus := 429, status := ("error"),
                  message := some (("Недостаточно запросов. Требуется: ")
                    ++ toString (l.length * 2) ++ (", осталось: ")
                    ++ toString (getRemainingRequests st today k)),
                  data := [], errors := none,
                  requestsUsedToday := some (getCount st today k : Int),
                  remainingRequests := some (getRemainingRequests st today k) },
        store := st, calls := [] }
    else
      let r := processBatch oracle today k l st
      if r.results = [] then
        { resp := { httpStatus := headStatusOr500 r.errors, status := ("error"),
                    message := some ("Не удалось загрузить данные ни для одной компании"),
                    data := [], errors := some r.errors,
                    requestsUsedToday := some (getCount r.store today k : Int),
                    remainingRequests := some (getRemainingRequests r.store today k) },
          store := r.store, calls := r.calls }
      else
        { resp := { httpStatus := 200, status := ("ok"), message := none,
                    data := r.results,
                    errors := if r.errors = [] then none else some r.errors,
                    requestsUsedToday := some (getCount r.store today k : Int),
                    remainingRequests := some (getRemainingRequests r.store today k) },
          store := r.store, calls := r.calls }
  | _, _ =>
    { resp := { httpStatus := 401, status := ("error"),
                message := some ("API ключ и массив ИНН обязательны"),
                data := [], errors := none,
                requestsUsedToday := none, remainingRequests := none },
      store := st, calls := [] }

/-! ### Concrete oracles used to instantiate the endpoint theorems -/

/-- Environment in which every upstream call fails with a classified error. -/
def oracleFail : Oracle := fun _ _ => Except.error { message := ("down"), statusCode := 503 }

/-- Environment in which every upstream call succeeds with a non-empty
payload reporting 7 requests used today. -/
def oracleOk : Oracle := fun _ _ =>
  Except.ok { todayRequestCount := some 7, dataKeys := some 3 }

/-- Environment in which every lookup of INN 2 fails and every other
upstream call succeeds with a non-empty payload. -/
def oracleMixed : Oracle := fun _ inn =>
  if inn = "2" then Except.error { message := ("down"), statusCode := 503 }
  else Except.ok { todayRequestCount := none, dataKeys := some 3 }

/-! ### Tracker lemmas -/

theorem mapGet_mapSet_self (st : Store) (k : String) (v : UsageRecord) :
    mapGet (mapSet st k v) k = some v := by
  induction st with
  | nil => simp [mapGet, mapSet]
  | cons hd tl ih =>
    obtain ⟨k1, v1⟩ := hd
    by_cases h : k1 = k
    · simp [mapGet, mapSet, h]
    · simp [mapGet, mapSet, h, ih]

theorem increment_fst (st : Store) (today k : String) :
    (increment st today k).1 = getCount st today k + 1 := by
  unfold increment getCount
  cases h : mapGet st (getKey k) with
  | none => simp
  | some d => by_cases hd : d.date = today <;> simp [hd]

theorem getCount_increment (st : Store) (today k : String) :
    getCount (increment st today k).2 today k = getCount st today k + 1 := by
  unfold increment
  cases h : mapGet st (getKey k) with
  | none => simp [getCount, h, mapGet_mapSet_self]
  | some d =>
    by_cases hd : d.date = today
    · simp [getCount, h, hd, mapGet_mapSet_self]
    · simp [getCount, h, hd, mapGet_mapSet_self]

theorem getCount_repeatIncrement (st : Store) (today k : String) :
    ∀ n : Nat, getCount (repeatIncrement st today k n).2 today k = getCount st today k + n := by
  intro n
  induction n with
  | zero => simp [repeatIncrement]
  | succ n ih => simp [repeatIncrement, getCount_increment, ih]; omega

theorem repeatIncrement_fst (st : Store) (today k : String) (n : Nat) :
    (repeatIncrement st today k (n + 1)).1 = getCount st today k + n + 1 := by
  simp [repeatIncrement, increment_fst, getCount_repeatIncrement]

/-! ### Claim theorems -/

/-- C1: `recordUsage` (`RequestTracker.increment`) installs a fresh record
with day `today` and count 1 and returns 1 when no record exists for the
digest of the credential or the day of the stored record differs from today; otherwise
it increments the stored count by one and returns the new value, for every
stored count (it never refuses); and starting from zero effective usage the
n-th consecutive same-day call returns n. -/
theorem c1_recordUsage_spec (st : Store) (today key : String) :
    (mapGet st (getKey key) = none →
      increment st today key = (1, mapSet st (getKey key) { date := today, count := 1 })) ∧
    (∀ d : UsageRecord, mapGet st (getKey key) = some d → d.date ≠ today →
      increment st today key = (1, mapSet st (getKey key) { date := today, count := 1 })) ∧
    (∀ d : UsageRecord, mapGet st (getKey key) = some d → d.date = today →
      increment st today key
        = (d.count + 1, mapSet st (getKey key) { date := d.date, count := d.count + 1 })) ∧
    (getCount st today key = 0 → ∀ n : Nat, (repeatIncrement st today key n).1 = n) := by
  refine ⟨?_, ?_, ?_, ?_⟩
  · intro h; unfold increment; rw [h]
  · intro d h hd; unfold increment; rw [h]; simp [hd]
  · intro d h hd; unfold increment; rw [h]; simp [hd]
  · intro h0 n
    cases n with
    | zero => rfl
    | succ n => rw [repeatIncrement_fst, h0]; omega

/-- Concrete instantiation of `c1_recordUsage_spec`: on the empty store the
first call returns 1 and installs a fresh record, and the 5th consecutive
same-day call returns 5. -/
theorem c1_recordUsage_spec_witness :
    increment ([] : Store) ("2024-01-02") ("k")
      = (1, mapSet ([] : Store) (getKey ("k")) { date := ("2024-01-02"), count := 1 }) ∧
    (repeatIncrement ([] : Store) ("2024-01-02") ("k") 5).1 = 5 :=
  ⟨(c1_recordUsage_spec ([] : Store) ("2024-01-02") ("k")).1 rfl,
   (c1_recordUsage_spec ([] : Store) ("2024-01-02") ("k")).2.2.2 rfl 5⟩

/-- C2: `remaining` (`RequestTracker.getRemainingRequests`) equals
`max(0, 100 - currentUsage)` with the daily limit fixed at 100, is never
negative, and is 0 whenever the stored count reaches or exceeds 100. -/
theorem c2_remaining_spec (st : Store) (today key : String) :
    getRemainingRequests st today key = max 0 (100 - (getCount st today key : Int)) ∧
    0 ≤ getRemainingRequests st today key ∧
    (100 ≤ getCount st today key → getRemainingRequests st today key = 0) := by
  refine ⟨rfl, le_max_left _ _, ?_⟩
  intro h
  unfold getRemainingRequests
  have h2 : (100 : Int) - (getCount st today key : Int) ≤ 0 := by omega
  exact max_eq_left h2

/-- Concrete instantiation of `c2_remaining_spec`: with 150 requests already
recorded today the remaining count is 0, not a negative number. -/
theorem c2_remaining_spec_witness :
    getRemainingRequests [((getKey ("k")), { date := ("2024-01-02"), count := 150 })]
      ("2024-01-02") ("k") = 0 :=
  (c2_remaining_spec [((getKey ("k")), { date := ("2024-01-02"), count := 150 })]
    ("2024-01-02") ("k")).2.2 (by decide)

/-- C7: `currentUsage` (`RequestTracker.getCount`) returns 0 when no record
exists for the digest of the credential or when the day of the stored record differs
from today, and otherwise the stored count; it is a pure read (its type
returns no store, so the store is unchanged by construction), and a record
from a prior day reads as 0 with the next `recordUsage` returning 1. -/
theorem c7_currentUsage_spec (st : Store) (today key : String) :
    (mapGet st (getKey key) = none → getCount st today key = 0) ∧
    (∀ d : UsageRecord, mapGet st (getKey key) = some d → d.date ≠ today →
      getCount st today key = 0 ∧ (increment st today key).1 = 1) ∧
    (∀ d : UsageRecord, mapGet st (getKey key) = some d → d.date = today →
      getCount st today key = d.count) := by
  refine ⟨?_, ?_, ?_⟩
  · intro h; unfold getCount; rw [h]
  · intro d h hd
    constructor
    · unfold getCount; rw [h]; simp [hd]
    · unfold increment; rw [h]; simp [hd]
  · intro d h hd; unfold getCount; rw [h]; simp [hd]

/-- Concrete instantiation of `c7_currentUsage_spec`: a record of 100
requests dated 2024-01-01 reads as 0 on 2024-01-02, and the next
`recordUsage` call returns 1, not 101. -/
theorem c7_currentUsage_spec_witness :
    getCount [((getKey ("k")), { date := ("2024-01-01"), count := 100 })]
      ("2024-01-02") ("k") = 0 ∧
    (increment [((getKey ("k")), { date := ("2024-01-01"), count := 100 })]
      ("2024-01-02") ("k")).1 = 1 :=
  (c7_currentUsage_spec [((getKey ("k")), { date := ("2024-01-01"), count := 100 })]
      ("2024-01-02") ("k")).2.1
    { date := ("2024-01-01"), count := 100 } (by decide) (by decide)

def sampleCredentials : List String :=
  [("alpha"), ("bravo"), ("charlie"), ("delta"), ("echo"), ("key-1"), ("key-2"), ("s3cret")]

/-- C8: the digest (`RequestTracker.getKey`, sha256 hex) is a deterministic
pure function of the credential whose output has the fixed length of 64 hex
characters (256 bits) for every input; on a sample of pairwise-distinct
credentials the digests are pairwise distinct. -/
theorem c8_digest_spec :
    (∀ s t : String, s = t → getKey s = getKey t) ∧
    (∀ s : String, (getKey s).length = 64) ∧
    sampleCredentials.Nodup ∧ (sampleCredentials.map getKey).Nodup := by
  refine ⟨fun s t h => h ▸ rfl, ?_, ?_, ?_⟩
  · intro s
    unfold getKey sha256Hex hash8Hex word8Hex
    simp [String.length]
  · decide
  · decide

/-- Concrete instantiation of `c8_digest_spec`: the digest of a sample
credential has length 64. -/
theorem c8_digest_spec_witness :
    (getKey ("alpha")).length = 64 :=
  c8_digest_spec.2.1 ("alpha")

/-- C6: `callCheckoAPI` classifies each upstream HTTP response into the
stable error categories: 401/403 (credential rejection) yields the
invalid-credential error with statusCode 401; 429 yields the
upstream-rate-limited error with statusCode 429; 400 with a parsed zero
balance yields the access-denied error with statusCode 402; any other
non-2xx status yields the generic upstream error carrying the raw status
(500 when the status is absent) and a best-effort message built from the
status and the error body; a 2xx status returns the parsed payload
unmodified. -/
theorem c6_classification_spec (r : UpstreamHttp) :
    (200 ≤ r.status ∧ r.status < 300 → callCheckoAPI r = Except.ok r.payload) ∧
    (r.status = 401 ∨ r.status = 403 →
      callCheckoAPI r
        = Except.error { message := ("Неверный API ключ или доступ запрещён"),
                         statusCode := 401 }) ∧
    (r.status = 429 →
      callCheckoAPI r
        = Except.error { message := ("Превышен лимит запросов к Checko API"),
                         statusCode := 429 }) ∧
    (r.status = 400 → r.metaBalanceZero = true →
      callCheckoAPI r
        = Except.error
            { message := ("Баланс API-ключа равен 0. Проверьте баланс на сайте checko.ru или используйте ключ с бесплатным тарифом."),
              statusCode := 402 }) ∧
    (¬(200 ≤ r.status ∧ r.status < 300) → r.status ≠ 401 → r.status ≠ 403 → r.status ≠ 429 →
      ¬(r.status = 400 ∧ r.metaBalanceZero = true) →
      callCheckoAPI r
        = Except.error { message := checkoErrorMessage r, statusCode := statusOr500 r.status }) := by
  refine ⟨?_, ?_, ?_, ?_, ?_⟩
  · intro h
    unfold callCheckoAPI
    rw [if_pos h]
  · intro h
    unfold callCheckoAPI
    rw [if_neg (by rcases h with h | h <;> omega), if_pos h]
  · intro h
    unfold callCheckoAPI
    rw [if_neg (by omega), if_neg (by omega), if_pos h]
  · intro h hb
    unfold callCheckoAPI
    rw [if_neg (by omega), if_neg (by omega), if_neg (by omega), if_pos ⟨h, hb⟩]
  · intro hok h1 h3 h9 hb
    unfold callCheckoAPI
    rw [if_neg hok, if_neg (by simp [h1, h3]), if_neg h9, if_neg hb]

/-- Concrete instantiation of `c6_classification_spec`: a 403 response is
classified as the invalid-credential error, and a 2xx response returns the
payload unmodified. -/
theorem c6_classification_spec_witness :
    callCheckoAPI { status := 403, errorBody := (""), metaBalanceZero := false,
                    payload := { todayRequestCount := some 7, dataKeys := some 3 } }
      = Except.error { message := ("Неверный API ключ или доступ запрещён"), statusCode := 401 } ∧
    callCheckoAPI { status := 200, errorBody := (""), metaBalanceZero := false,
                    payload := { todayRequestCount := some 7, dataKeys := some 3 } }
      = Except.ok { todayRequestCount := some 7, dataKeys := some 3 } :=
  ⟨(c6_classification_spec
      { status := 403, errorBody := (""), metaBalanceZero := false,
        payload := { todayRequestCount := some 7, dataKeys := some 3 } }).2.1
      (Or.inr rfl),
   (c6_classification_spec
      { status := 200, errorBody := (""), metaBalanceZero := false,
        payload := { todayRequestCount := some 7, dataKeys := some 3 } }).1
      (by decide)⟩

/-! ### Endpoint branch lemmas -/

theorem companyEndpoint_missing (oracle : Oracle) (st : Store) (today : String)
    (apiKey inn : Option String)
    (h : apiKey = none ∨ apiKey = some ("") ∨ inn = none ∨ inn = some ("")) :
    companyEndpoint oracle st today apiKey inn
      = { resp := mkError 401 ("API ключ и ИНН обязательны") none none,
          store := st, calls := [] } := by
  rcases h with h | h | h | h
  · subst h; cases inn <;> rfl
  · subst h
    cases inn with
    | none => rfl
    | some i => simp [companyEndpoint]
  · subst h; cases apiKey <;> rfl
  · subst h
    cases apiKey with
    | none => rfl
    | some k => simp [companyEndpoint]

theorem financesEndpoint_missing (oracle : Oracle) (st : Store) (today : String)
    (apiKey inn : Option String)
    (h : apiKey = none ∨ apiKey = some ("") ∨ inn = none ∨ inn = some ("")) :
    financesEndpoint oracle st today apiKey inn
      = { resp := mkError 401 ("API ключ и ИНН обязательны") none none,
          store := st, calls := [] } := by
  rcases h with h | h | h | h
  · subst h; cases inn <;> rfl
  · subst h
    cases inn with
    | none => rfl
    | some i => simp [financesEndpoint]
  · subst h; cases apiKey <;> rfl
  · subst h
    cases apiKey with
    | none => rfl
    | some k => simp [financesEndpoint]

theorem companyEndpoint_quota (oracle : Oracle) (st : Store) (today k i : String)
    (hk : k ≠ "") (hi : i ≠ "") (hq : getRemainingRequests st today k ≤ 0) :
    companyEndpoint oracle st today (some k) (some i)
      = { resp := mkError 429 ("Лимит 100 запросов в день исчерпан (локальный счетчик)")
            (some 100) (some 0),
          store := st, calls := [] } := by
  simp only [companyEndpoint]
  rw [if_neg (by simp [hk, hi]), if_pos hq]

theorem financesEndpoint_quota (oracle : Oracle) (st : Store) (today k i : String)
    (hk : k ≠ "") (hi : i ≠ "") (hq : getRemainingRequests st today k ≤ 0) :
    financesEndpoint oracle st today (some k) (some i)
      = { resp := mkError 429 ("Лимит 100 запросов в день исчерпан (локальный счетчик)")
            (some 100) (some 0),
          store := st, calls := [] } := by
  simp only [financesEndpoint]
  rw [if_neg (by simp [hk, hi]), if_pos hq]

theorem batchEndpoint_missing (oracle : Oracle) (st : Store) (today : String)
    (apiKey : Option String) (innList : Option (List String))
    (h : apiKey = none ∨ apiKey = some ("") ∨ innList = none ∨ innList = some []) :
    batchEndpoint oracle st today apiKey innList
      = { resp := { httpStatus := 401, status := ("error"),
                    message := some ("API ключ и массив ИНН обязательны"),
                    data := [], errors := none,
                    requestsUsedToday := none, remainingRequests := none },
          store := st, calls := [] } := by
  rcases h with h | h | h | h
  · subst h; cases innList <;> rfl
  · subst h
    cases innList with
    | none => rfl
    | some l => simp [batchEndpoint]
  · subst h; cases apiKey <;> rfl
  · subst h
    cases apiKey with
    | none => rfl
    | some k => simp [batchEndpoint]

theorem batchEndpoint_quota (oracle : Oracle) (st : Store) (today k : String)
    (l : List String) (hk : k ≠ "") (hl : l ≠ [])
    (hq : getRemainingRequests st today k < ((l.length * 2 : Nat) : Int)) :
    batchEndpoint oracle st today (some k) (some l)
      = { resp := { httpStatus := 429, status := ("error"),
                    message := some (("Недостаточно запросов. Требуется: ")
                      ++ toString (l.length * 2) ++ (", осталось: ")
                      ++ toString (getRemainingRequests st today k)),
                    data := [], errors := none,
                    requestsUsedToday := some (getCount st today k : Int),
                    remainingRequests := some (getRemainingRequests st today k) },
          store := st, calls := [] } := by
  simp only [batchEndpoint]
  rw [if_neg (by simp [hk, hl]), if_pos hq]

/-- C10: a single lookup rejected by the local quota pre-check answers with
the hard-coded figures `requestsUsedToday = 100` and `remainingRequests = 0`,
whatever the actual stored count is (the tracker never caps it). -/
theorem c10_quota_exceeded_constants (oracle : Oracle) (st : Store) (today k i : String)
    (hk : k ≠ "") (hi : i ≠ "") (hq : getRemainingRequests st today k ≤ 0) :
    (companyEndpoint oracle st today (some k) (some i)).resp.httpStatus = 429 ∧
    (companyEndpoint oracle st today (some k) (some i)).resp.requestsUsedToday = some 100 ∧
    (companyEndpoint oracle st today (some k) (some i)).resp.remainingRequests = some 0 ∧
    (financesEndpoint oracle st today (some k) (some i)).resp.httpStatus = 429 ∧
    (financesEndpoint oracle st today (some k) (some i)).resp.requestsUsedToday = some 100 ∧
    (financesEndpoint oracle st today (some k) (some i)).resp.remainingRequests = some 0 := by
  rw [companyEndpoint_quota oracle st today k i hk hi hq,
    financesEndpoint_quota oracle st today k i hk hi hq]
  simp [mkError]

/-- Concrete instantiation of `c10_quota_exceeded_constants`: with a stored
count of 150 (above the limit, never capped by the tracker), the rejected
lookup still reports exactly 100 used and 0 remaining. -/
theorem c10_quota_exceeded_constants_witness :
    (companyEndpoint oracleFail [((getKey ("k")), { date := ("2024-01-02"), count := 150 })]
        ("2024-01-02") (some ("k")) (some ("123"))).resp.requestsUsedToday = some 100 ∧
    (companyEndpoint oracleFail [((getKey ("k")), { date := ("2024-01-02"), count := 150 })]
        ("2024-01-02") (some ("k")) (some ("123"))).resp.remainingRequests = some 0 :=
  ⟨(c10_quota_exceeded_constants oracleFail
      [((getKey ("k")), { date := ("2024-01-02"), count := 150 })]
      ("2024-01-02") ("k") ("123") (by decide) (by decide) (by decide)).2.1,
   (c10_quota_exceeded_constants oracleFail
      [((getKey ("k")), { date := ("2024-01-02"), count := 150 })]
      ("2024-01-02") ("k") ("123") (by decide) (by decide) (by decide)).2.2.1⟩

/-- C4: when the upstream call of a single lookup fails with a classified
error, the handler answers with exactly that error (its statusCode, defaulted
to 500 when absent, and its message), performs no increment (the store is
unchanged), and the attached usage figures equal the unchanged tracker
current values. -/
theorem c4_upstream_failure_spec (oracle : Oracle) (st : Store) (today k i : String)
    (e : ApiError) (hk : k ≠ "") (hi : i ≠ "")
    (hq : 0 < getRemainingRequests st today k) :
    (oracle ("/company") i = Except.error e →
      companyEndpoint oracle st today (some k) (some i)
        = { resp := mkError (statusOr500 e.statusCode) e.message
              (some (getCount st today k : Int)) (some (getRemainingRequests st today k)),
            store := st, calls := [(("/company"), i)] }) ∧
    (oracle ("/finances") i = Except.error e →
      financesEndpoint oracle st today (some k) (some i)
        = { resp := mkError (statusOr500 e.statusCode) e.message
              (some (getCount st today k : Int)) (some (getRemainingRequests st today k)),
            store := st, calls := [(("/finances"), i)] }) := by
  constructor
  · intro ho
    simp only [companyEndpoint]
    rw [if_neg (by simp [hk, hi]), if_neg (not_le.mpr hq), ho]
  · intro ho
    simp only [financesEndpoint]
    rw [if_neg (by simp [hk, hi]), if_neg (not_le.mpr hq), ho]

/-- Concrete instantiation of `c4_upstream_failure_spec`: with one request
already recorded and a failing upstream, the company endpoint reports the
classified error with the unchanged figures (1 used, 99 remaining) and
leaves the store as it was. -/
theorem c4_upstream_failure_spec_witness :
    companyEndpoint oracleFail [((getKey ("k")), { date := ("2024-01-02"), count := 1 })]
        ("2024-01-02") (some ("k")) (some ("123"))
      = { resp := mkError 503 ("down") (some 1) (some 99),
          store := [((getKey ("k")), { date := ("2024-01-02"), count := 1 })],
          calls := [(("/company"), ("123"))] } :=
  (c4_upstream_failure_spec oracleFail
      [((getKey ("k")), { date := ("2024-01-02"), count := 1 })]
      ("2024-01-02") ("k") ("123") { message := ("down"), statusCode := 503 }
      (by decide) (by decide) (by decide)).1 rfl

/-- C3: every request failing a local precondition — missing credential or
identifier, non-positive remaining quota for a single lookup, or remaining
quota below twice the number of identifiers for a batch — gets an error
response, causes zero upstream calls, and leaves the quota store unchanged. -/
theorem c3_precheck_spec (oracle : Oracle) (st : Store) (today : String)
    (apiKey inn : Option String) (innList : Option (List String)) :
    (apiKey = none ∨ apiKey = some ("") ∨ inn = none ∨ inn = some ("") →
      (companyEndpoint oracle st today apiKey inn).resp.status = ("error") ∧
      (companyEndpoint oracle st today apiKey inn).store = st ∧
      (companyEndpoint oracle st today apiKey inn).calls = [] ∧
      (financesEndpoint oracle st today apiKey inn).resp.status = ("error") ∧
      (financesEndpoint oracle st today apiKey inn).store = st ∧
      (financesEndpoint oracle st today apiKey inn).calls = []) ∧
    (∀ k i : String, apiKey = some k → inn = some i → k ≠ "" → i ≠ "" →
      getRemainingRequests st today k ≤ 0 →
      (companyEndpoint oracle st today apiKey inn).resp.status = ("error") ∧
      (companyEndpoint oracle st today apiKey inn).store = st ∧
      (companyEndpoint oracle st today apiKey inn).calls = [] ∧
      (financesEndpoint oracle st today apiKey inn).resp.status = ("error") ∧
      (financesEndpoint oracle st today apiKey inn).store = st ∧
      (financesEndpoint oracle st today apiKey inn).calls = []) ∧
    (apiKey = none ∨ apiKey = some ("") ∨ innList = none ∨ innList = some [] →
      (batchEndpoint oracle st today apiKey innList).resp.status = ("error") ∧
      (batchEndpoint oracle st today apiKey innList).store = st ∧
      (batchEndpoint oracle st today apiKey innList).calls = []) ∧
    (∀ (k : String) (l : List String), apiKey = some k → innList = some l →
      k ≠ "" → l ≠ [] →
      getRemainingRequests st today k < ((l.length * 2 : Nat) : Int) →
      (batchEndpoint oracle st today apiKey innList).resp.status = ("error") ∧
      (batchEndpoint oracle st today apiKey innList).store = st ∧
      (batchEndpoint oracle st today apiKey innList).calls = []) := by
  refine ⟨?_, ?_, ?_, ?_⟩
  · intro h
    rw [companyEndpoint_missing oracle st today apiKey inn h,
      financesEndpoint_missing oracle st today apiKey inn h]
    simp [mkError]
  · intro k i hak hai hk hi hq
    subst hak; subst hai
    rw [companyEndpoint_quota oracle st today k i hk hi hq,
      financesEndpoint_quota oracle st today k i hk hi hq]
    simp [mkError]
  · intro h
    rw [batchEndpoint_missing oracle st today apiKey innList h]
    simp
  · intro k l hak hal hk hl hq
    subst hak; subst hal
    rw [batchEndpoint_quota oracle st today k l hk hl hq]
    simp

/-- Concrete instantiations of `c3_precheck_spec`: a company lookup with no
credential, and a batch of 3 identifiers against a remaining quota of 5
(needs 6), both yield an error, no upstream call and an unchanged store. -/
theorem c3_precheck_spec_witness :
    ((companyEndpoint oracleOk ([] : Store) ("2024-01-02") none (some ("123"))).resp.status
        = ("error") ∧
      (companyEndpoint oracleOk ([] : Store) ("2024-01-02") none (some ("123"))).calls = []) ∧
    ((batchEndpoint oracleOk [((getKey ("k")), { date := ("2024-01-02"), count := 95 })]
        ("2024-01-02") (some ("k"))
        (some [("1"), ("2"), ("3")])).resp.status = ("error") ∧
      (batchEndpoint oracleOk [((getKey ("k")), { date := ("2024-01-02"), count := 95 })]
        ("2024-01-02") (some ("k"))
        (some [("1"), ("2"), ("3")])).store
          = [((getKey ("k")), { date := ("2024-01-02"), count := 95 })] ∧
      (batchEndpoint oracleOk [((getKey ("k")), { date := ("2024-01-02"), count := 95 })]
        ("2024-01-02") (some ("k"))
        (some [("1"), ("2"), ("3")])).calls = []) :=
  ⟨⟨((c3_precheck_spec oracleOk ([] : Store) ("2024-01-02") none (some ("123")) none).1
        (Or.inl rfl)).1,
    ((c3_precheck_spec oracleOk ([] : Store) ("2024-01-02") none (some ("123")) none).1
        (Or.inl rfl)).2.2.1⟩,
   (c3_precheck_spec oracleOk [((getKey ("k")), { date := ("2024-01-02"), count := 95 })]
      ("2024-01-02") (some ("k")) none (some [("1"), ("2"), ("3")])).2.2.2
      ("k") [("1"), ("2"), ("3")] rfl rfl (by decide) (by decide) (by decide)⟩

/-- C9: a check-connection request never touches the tracker: the store is
returned unchanged; the only possible upstream call is a company lookup of
the fixed reference INN 7735560386; and on upstream success the reported
`requestsUsedToday` comes from the upstream metadata when present and
non-zero, falling back to the unchanged tracker count. -/
theorem c9_check_connection_spec (oracle : Oracle) (st : Store) (today : String)
    (apiKey : Option String) :
    (checkConnectionEndpoint oracle st today apiKey).store = st ∧
    ((checkConnectionEndpoint oracle st today apiKey).calls = [] ∨
      (checkConnectionEndpoint oracle st today apiKey).calls = [(("/company"), testINN)]) ∧
    (∀ (k : String) (p : Payload), apiKey = some k → k ≠ "" →
      oracle ("/company") testINN = Except.ok p →
      (checkConnectionEndpoint oracle st today apiKey).resp.requestsUsedToday
        = some (metaOrCount p.todayRequestCount (getCount st today k))) := by
  refine ⟨?_, ?_, ?_⟩
  · cases apiKey with
    | none => rfl
    | some k =>
      by_cases hk : k = ""
      · simp [checkConnectionEndpoint, hk]
      · cases h : oracle ("/company") testINN with
        | ok p => simp [checkConnectionEndpoint, hk, h]
        | error e => simp [checkConnectionEndpoint, hk, h]
  · cases apiKey with
    | none => exact Or.inl rfl
    | some k =>
      by_cases hk : k = ""
      · exact Or.inl (by simp [checkConnectionEndpoint, hk])
      · cases h : oracle ("/company") testINN with
        | ok p => exact Or.inr (by simp [checkConnectionEndpoint, hk, h])
        | error e => exact Or.inr (by simp [checkConnectionEndpoint, hk, h])
  · intro k p hak hk ho
    subst hak
    simp [checkConnectionEndpoint, hk, ho]

/-- Concrete instantiation of `c9_check_connection_spec`: with a succeeding
upstream, the store stays unchanged and the reported usage comes from the
upstream metadata (7). -/
theorem c9_check_connection_spec_witness :
    (checkConnectionEndpoint oracleOk [((getKey ("k")), { date := ("2024-01-02"), count := 42 })]
        ("2024-01-02") (some ("k"))).store
      = [((getKey ("k")), { date := ("2024-01-02"), count := 42 })] ∧
    (checkConnectionEndpoint oracleOk [((getKey ("k")), { date := ("2024-01-02"), count := 42 })]
        ("2024-01-02") (some ("k"))).resp.requestsUsedToday = some 7 :=
  ⟨(c9_check_connection_spec oracleOk
      [((getKey ("k")), { date := ("2024-01-02"), count := 42 })]
      ("2024-01-02") (some ("k"))).1,
   (c9_check_connection_spec oracleOk
      [((getKey ("k")), { date := ("2024-01-02"), count := 42 })]
      ("2024-01-02") (some ("k"))).2.2
      ("k") { todayRequestCount := some 7, dataKeys := some 3 } rfl (by decide) rfl⟩

/-! ### Batch loop lemmas -/

theorem processBatch_length (oracle : Oracle) (today k : String) (l : List String) :
    ∀ st : Store,
      (processBatch oracle today k l st).results.length
        + (processBatch oracle today k l st).errors.length = l.length := by
  induction l with
  | nil => intro st; simp [processBatch]
  | cons inn rest ih =>
    intro st
    simp only [processBatch]
    cases h : oracle ("/company") inn with
    | error e =>
      have h1 := ih st
      simp
      omega
    | ok companyData =>
      by_cases hc : hasData companyData = true
      · simp only [hc, if_true]
        cases h2 : oracle ("/finances") inn with
        | error e =>
          have h1 := ih (increment st today k).2
          simp
          omega
        | ok financeData =>
          by_cases hf : hasData financeData = true
          · have h1 := ih (increment (increment st today k).2 today k).2
            simp [hf]
            omega
          · have h1 := ih (increment (increment st today k).2 today k).2
            simp [hf]
            omega
      · have h1 := ih (increment st today k).2
        simp [hc]
        omega

theorem processBatch_mem (oracle : Oracle) (today k : String) (l : List String) :
    ∀ (st : Store) (x : String), x ∈ l →
      x ∈ (processBatch oracle today k l st).results.map BatchEntry.inn ∨
      x ∈ (processBatch oracle today k l st).errors.map BatchError.inn := by
  induction l with
  | nil => intro st x hx; cases hx
  | cons inn rest ih =>
    intro st x hx
    simp only [processBatch]
    cases h : oracle ("/company") inn with
    | error e =>
      rcases List.mem_cons.mp hx with rfl | hx2
      · right; simp
      · rcases ih st x hx2 with h1 | h1
        · left; simpa using h1
        · right; simp only [List.map_cons]; exact List.mem_cons_of_mem _ h1
    | ok companyData =>
      by_cases hc : hasData companyData = true
      · simp only [hc, if_true]
        cases h2 : oracle ("/finances") inn with
        | error e =>
          rcases List.mem_cons.mp hx with rfl | hx2
          · right; simp
          · rcases ih (increment st today k).2 x hx2 with h1 | h1
            · left; simpa using h1
            · right; simp only [List.map_cons]; exact List.mem_cons_of_mem _ h1
        | ok financeData =>
          by_cases hf : hasData financeData = true
          · rcases List.mem_cons.mp hx with rfl | hx2
            · left; simp [hf]
            · rcases ih (increment (increment st today k).2 today k).2 x hx2 with h1 | h1
              · left; simp only [hf, if_true, List.map_cons]
                exact List.mem_cons_of_mem _ h1
              · right; simpa [hf] using h1
          · rcases List.mem_cons.mp hx with rfl | hx2
            · right; simp [hf]
            · rcases ih (increment (increment st today k).2 today k).2 x hx2 with h1 | h1
              · left; simpa [hf] using h1
              · right; simp only [hf, if_false, List.map_cons]
                simp
                exact Or.inr (by simpa using h1)
      · rcases List.mem_cons.mp hx with rfl | hx2
        · right; simp [hc]
        · rcases ih (increment st today k).2 x hx2 with h1 | h1
          · left; simpa [hc] using h1
          · right; simp only [hc, List.map_cons]
            simp [hc]
            exact Or.inr (by simpa using h1)

/-- Reduction of the batch endpoint once the pre-checks pass: the response is
assembled from the loop outcome `processBatch`. -/
theorem batchEndpoint_run (oracle : Oracle) (st : Store) (today k : String)
    (l : List String) (hk : k ≠ "") (hl : l ≠ [])
    (hq : ¬ getRemainingRequests st today k < ((l.length * 2 : Nat) : Int)) :
    batchEndpoint oracle st today (some k) (some l)
      = (if (processBatch oracle today k l st).results = [] then
          { resp := { httpStatus := headStatusOr500 (processBatch oracle today k l st).errors,
                      status := ("error"),
                      message := some ("Не удалось загрузить данные ни для одной компании"),
                      data := [], errors := some (processBatch oracle today k l st).errors,
                      requestsUsedToday :=
                        some (getCount (processBatch oracle today k l st).store today k : Int),
                      remainingRequests :=
                        some (getRemainingRequests (processBatch oracle today k l st).store today k) },
            store := (processBatch oracle today k l st).store,
            calls := (processBatch oracle today k l st).calls }
        else
          { resp := { httpStatus := 200, status := ("ok"), message := none,
                      data := (processBatch oracle today k l st).results,
                      errors := if (processBatch oracle today k l st).errors = [] then none
                        else some (processBatch oracle today k l st).errors,
                      requestsUsedToday :=
                        some (getCount (processBatch oracle today k l st).store today k : Int),
                      remainingRequests :=
                        some (getRemainingRequests (processBatch oracle today k l st).store today k) },
            store := (processBatch oracle today k l st).store,
            calls := (processBatch oracle today k l st).calls }) := by
  simp only [batchEndpoint]
  rw [if_neg (by simp [hk, hl]), if_neg hq]

/-- C5: once the quota pre-check passes, every entity of the batch is
processed (each identifier lands in the successes or in the per-entity
errors, and the two lists together have exactly one entry per identifier —
the failure of one entity does not abort the rest); the response carries the
successes and, whenever failures occurred, the per-entity error list, and the
overall status is an error exactly when no entity succeeded. -/
theorem c5_batch_partial_failure_spec (oracle : Oracle) (st : Store) (today k : String)
    (l : List String) (hk : k ≠ "") (hl : l ≠ [])
    (hq : ¬ getRemainingRequests st today k < ((l.length * 2 : Nat) : Int)) :
    (processBatch oracle today k l st).results.length
        + (processBatch oracle today k l st).errors.length = l.length ∧
    (∀ x : String, x ∈ l →
      x ∈ (processBatch oracle today k l st).results.map BatchEntry.inn ∨
      x ∈ (processBatch oracle today k l st).errors.map BatchError.inn) ∧
    (batchEndpoint oracle st today (some k) (some l)).resp.data
        = (processBatch oracle today k l st).results ∧
    ((processBatch oracle today k l st).errors ≠ [] →
      (batchEndpoint oracle st today (some k) (some l)).resp.errors
        = some (processBatch oracle today k l st).errors) ∧
    ((batchEndpoint oracle st today (some k) (some l)).resp.status = ("error")
      ↔ (processBatch oracle today k l st).results = []) := by
  refine ⟨processBatch_length oracle today k l st, processBatch_mem oracle today k l st,
    ?_, ?_, ?_⟩
  · rw [batchEndpoint_run oracle st today k l hk hl hq]
    by_cases hres : (processBatch oracle today k l st).results = []
    · simp [hres]
    · simp [hres]
  · intro herr
    rw [batchEndpoint_run oracle st today k l hk hl hq]
    by_cases hres : (processBatch oracle today k l st).results = []
    · simp [hres]
    · simp [hres, herr]
  · rw [batchEndpoint_run oracle st today k l hk hl hq]
    by_cases hres : (processBatch oracle today k l st).results = []
    · simp [hres]
    · simp [hres]

/-- Concrete instantiation of `c5_batch_partial_failure_spec`: a 2-entity
batch where the company lookup of the second entity fails (oracleMixed)
yields one success and one per-entity error, an overall ok status, and both
lists in the response. -/
theorem c5_batch_partial_failure_spec_witness :
    (processBatch oracleMixed ("2024-01-02") ("k") [("1"), ("2")] ([] : Store)).results.length
        + (processBatch oracleMixed ("2024-01-02") ("k") [("1"), ("2")] ([] : Store)).errors.length
        = 2 ∧
    ((batchEndpoint oracleMixed ([] : Store) ("2024-01-02") (some ("k"))
        (some [("1"), ("2")])).resp.status = ("error")
      ↔ (processBatch oracleMixed ("2024-01-02") ("k") [("1"), ("2")] ([] : Store)).results = []) :=
  ⟨(c5_batch_partial_failure_spec oracleMixed ([] : Store) ("2024-01-02") ("k")
      [("1"), ("2")] (by decide) (by decide) (by decide)).1,
   (c5_batch_partial_failure_spec oracleMixed ([] : Store) ("2024-01-02") ("k")
      [("1"), ("2")] (by decide) (by decide) (by decide)).2.2.2.2⟩

end Handler
